import Mathlib

/-
  Verification development for the `relax` relaxation-fitting library
  (src/relax.py), shallowly embedded over the reals.

  The external nonlinear least-squares solver (`scipy.optimize.curve_fit`)
  is an external collaborator: it is modelled as an explicit function
  argument returning a parameter vector and a covariance matrix.
  Python's `warnings.warn` side channel is modelled as a list of warning
  records returned alongside the fit result.
-/

namespace Relax

/-- Source: `single_step_relaxation(x,a,b,c) = a*(1-exp(-b*x))+c`
(src/relax.py line 22). -/
noncomputable def single_step_relaxation (x a b c : ℝ) : ℝ :=
  a * (1 - Real.exp (-b * x)) + c

/-- Source: `two_step_relaxation(x,a,b,c,d,e) = a*(1-exp(-b*x))+c*(1-exp(-d*x))+e`
(src/relax.py line 38). -/
noncomputable def two_step_relaxation (x a b c d e : ℝ) : ℝ :=
  a * (1 - Real.exp (-b * x)) + c * (1 - Real.exp (-d * x)) + e

/-- Source: `three_step_relaxation(x,a,b,c,d,e,f,g)` (src/relax.py line 56). -/
noncomputable def three_step_relaxation (x a b c d e f g : ℝ) : ℝ :=
  a * (1 - Real.exp (-b * x)) + c * (1 - Real.exp (-d * x)) +
    e * (1 - Real.exp (-f * x)) + g

/-- A relaxation model: the Python callable together with its parameter
count as recovered by `len(signature(f).parameters) - 1`
(src/relax.py line 79).  `eval` consumes the parameter vector as a list,
in the order of the function's parameters after `x`. -/
structure RelaxationModel where
  arity : ℕ
  eval : ℝ → List ℝ → ℝ

/-- The single-step model: arity 3 (parameters `a`, `b`, `c` after `x`). -/
noncomputable def singleStepModel : RelaxationModel :=
  ⟨3, fun x ps => single_step_relaxation x (ps.getD 0 0) (ps.getD 1 0) (ps.getD 2 0)⟩

/-- The two-step model: arity 5 (parameters `a` … `e` after `x`). -/
noncomputable def twoStepModel : RelaxationModel :=
  ⟨5, fun x ps => two_step_relaxation x (ps.getD 0 0) (ps.getD 1 0) (ps.getD 2 0)
      (ps.getD 3 0) (ps.getD 4 0)⟩

/-- The three-step model: arity 7 (parameters `a` … `g` after `x`). -/
noncomputable def threeStepModel : RelaxationModel :=
  ⟨7, fun x ps => three_step_relaxation x (ps.getD 0 0) (ps.getD 1 0) (ps.getD 2 0)
      (ps.getD 3 0) (ps.getD 4 0) (ps.getD 5 0) (ps.getD 6 0)⟩

/-- The letter table `"abcdefghijklmnopqrstuvwxyz"` used to label
parameters positionally (src/relax.py line 84). -/
def parameter_letters : List Char := "abcdefghijklmnopqrstuvwxyz".toList

/-- Lookup `"abcdefghijklmnopqrstuvwxyz"[index]`; all models in the source
have arity at most 7, so the index never leaves the table. -/
def parameter_letter (index : ℕ) : Char := parameter_letters.getD index 'a'

/-- One emitted reliability warning: the positional letter of the
parameter, its standard deviation and its fitted value
(src/relax.py line 85). -/
structure FitWarning where
  letter : Char
  std : ℝ
  value : ℝ

/-- The f-string `"Parameter {parameter_letter} has standard deviation
({standard_dev}) larger than its value({value})"` of src/relax.py line 85,
with `fmt` standing for Python's float rendering. -/
def FitWarning.message (w : FitWarning) (fmt : ℝ → String) : String :=
  "Parameter " ++ String.singleton w.letter ++ " has standard deviation (" ++
    fmt w.std ++ ") larger than its value(" ++ fmt w.value ++ ")"

/-- The external solver contract (`scipy.optimize.curve_fit`): it receives
the model function, the `x` and `y` data, the initial guess `p0` and
`maxfev`, and returns a fitted parameter vector together with the
covariance matrix. -/
def Solver : Type :=
  (ℝ → List ℝ → ℝ) → List ℝ → List ℝ → List ℝ → ℕ → List ℝ × (ℕ → ℕ → ℝ)

/-- The warning loop of src/relax.py lines 81-85: for each parameter index,
`standard_dev = sqrt(covariance[index,index])`, and a warning is emitted
when `abs(value) < abs(standard_dev)`. -/
noncomputable def reliability_warnings (parameters : List ℝ)
    (covariance : ℕ → ℕ → ℝ) : List FitWarning :=
  (List.range parameters.length).filterMap fun index =>
    let value := parameters.getD index 0
    let standard_dev := Real.sqrt (covariance index index)
    if |value| < |standard_dev| then
      some ⟨parameter_letter index, standard_dev, value⟩
    else none

/-- The fit driver `relaxation_fit` (src/relax.py lines 59-87).  The failing `assert` of
line 79 is modelled as `none`; on success the result is the returned
triple `(parameters, covariance, y_calc)` paired with the list of
warnings emitted on the side channel. -/
noncomputable def relaxation_fit (solver : Solver) (x y : List ℝ)
    (relaxation_function : RelaxationModel) (initial_guess : List ℝ)
    (maxfev : ℕ) :
    Option ((List ℝ × (ℕ → ℕ → ℝ) × List ℝ) × List FitWarning) :=
  if initial_guess.length = relaxation_function.arity then
    let pc := solver relaxation_function.eval x y initial_guess maxfev
    let parameters := pc.1
    let covariance := pc.2
    let ws := reliability_warnings parameters covariance
    let y_calc := x.map fun i => relaxation_function.eval i parameters
    some ((parameters, covariance, y_calc), ws)
  else
    none

/-- A trivial concrete solver used only to witness the fit theorems: it
returns the initial guess as the fitted parameters and a zero covariance
matrix. -/
def trivialSolver : Solver :=
  fun _ _ _ initial_guess _ => (initial_guess, fun _ _ => 0)

/-- On a matching guess length, `relaxation_fit` returns the solver's
parameter vector and covariance unchanged, the recomputed curve, and the
reliability warnings. -/
lemma relaxation_fit_pos (solver : Solver) (x y : List ℝ)
    (m : RelaxationModel) (initial_guess : List ℝ) (maxfev : ℕ)
    (params : List ℝ) (cov : ℕ → ℕ → ℝ)
    (hlen : initial_guess.length = m.arity)
    (hsolve : solver m.eval x y initial_guess maxfev = (params, cov)) :
    relaxation_fit solver x y m initial_guess maxfev =
      some ((params, cov, x.map fun i => m.eval i params),
        reliability_warnings params cov) := by
  simp [relaxation_fit, hlen, hsolve]

/-- Membership in the warning list of the warning loop. -/
lemma mem_reliability_warnings (params : List ℝ) (cov : ℕ → ℕ → ℝ)
    (w : FitWarning) :
    w ∈ reliability_warnings params cov ↔
      ∃ i, i < params.length ∧
        |params.getD i 0| < |Real.sqrt (cov i i)| ∧
        w = ⟨parameter_letter i, Real.sqrt (cov i i), params.getD i 0⟩ := by
  unfold reliability_warnings
  simp only [List.mem_filterMap, List.mem_range]
  constructor
  · rintro ⟨i, hi, hw⟩
    by_cases hc : |params.getD i 0| < |Real.sqrt (cov i i)|
    · rw [if_pos hc, Option.some.injEq] at hw
      exact ⟨i, hi, hc, hw.symm⟩
    · rw [if_neg hc] at hw
      exact Option.noConfusion hw
  · rintro ⟨i, hi, hc, rfl⟩
    exact ⟨i, hi, by rw [if_pos hc]⟩

/-- C4: the three model functions compute exactly the stated closed forms,
with arities 3, 5 and 7, and the model wrappers evaluate them on the
parameter vector in order. -/
theorem model_closed_forms :
    (∀ x a b c : ℝ,
      single_step_relaxation x a b c = a * (1 - Real.exp (-b * x)) + c) ∧
    (∀ x a b c d e : ℝ,
      two_step_relaxation x a b c d e =
        a * (1 - Real.exp (-b * x)) + c * (1 - Real.exp (-d * x)) + e) ∧
    (∀ x a b c d e f g : ℝ,
      three_step_relaxation x a b c d e f g =
        a * (1 - Real.exp (-b * x)) + c * (1 - Real.exp (-d * x)) +
          e * (1 - Real.exp (-f * x)) + g) ∧
    singleStepModel.arity = 3 ∧ twoStepModel.arity = 5 ∧
    threeStepModel.arity = 7 ∧
    (∀ x a b c : ℝ,
      singleStepModel.eval x [a, b, c] = single_step_relaxation x a b c) ∧
    (∀ x a b c d e : ℝ,
      twoStepModel.eval x [a, b, c, d, e] = two_step_relaxation x a b c d e) ∧
    (∀ x a b c d e f g : ℝ,
      threeStepModel.eval x [a, b, c, d, e, f, g] =
        three_step_relaxation x a b c d e f g) :=
  ⟨fun _ _ _ _ => rfl, fun _ _ _ _ _ _ => rfl, fun _ _ _ _ _ _ _ _ => rfl,
    rfl, rfl, rfl,
    fun _ _ _ _ => rfl, fun _ _ _ _ _ _ => rfl, fun _ _ _ _ _ _ _ _ => rfl⟩

/-- C6: zero amplitude collapses the single-step model to the offset. -/
theorem single_step_zero_amplitude (x b c : ℝ) :
    single_step_relaxation x 0 b c = c := by
  unfold single_step_relaxation
  ring

/-- C7: a two-step model with zero second amplitude reduces to the
single-step model. -/
theorem two_step_degenerate (x a b d e : ℝ) :
    two_step_relaxation x a b 0 d e = single_step_relaxation x a b e := by
  unfold two_step_relaxation single_step_relaxation
  ring

/-- C1: when the initial guess length differs from the model arity the call
fails before the solver is consulted (the result is `none` for every
solver); when the lengths agree the check passes and the solver's output
determines the result. -/
theorem relaxation_fit_arity_validation (solver : Solver) (x y : List ℝ)
    (m : RelaxationModel) (initial_guess : List ℝ) (maxfev : ℕ) :
    (initial_guess.length ≠ m.arity →
      relaxation_fit solver x y m initial_guess maxfev = none) ∧
    (initial_guess.length = m.arity →
      relaxation_fit solver x y m initial_guess maxfev =
        some (((solver m.eval x y initial_guess maxfev).1,
               (solver m.eval x y initial_guess maxfev).2,
               x.map fun i =>
                 m.eval i (solver m.eval x y initial_guess maxfev).1),
              reliability_warnings
                (solver m.eval x y initial_guess maxfev).1
                (solver m.eval x y initial_guess maxfev).2)) := by
  constructor
  · intro h
    simp [relaxation_fit, h]
  · intro h
    exact relaxation_fit_pos solver x y m initial_guess maxfev _ _ h rfl

/-- Witness for C1: a length-2 guess against the arity-3 single-step model
is rejected; a length-3 guess is accepted and the solver's output is
returned. -/
theorem relaxation_fit_arity_validation_witness :
    (([(1 : ℝ), 1].length ≠ singleStepModel.arity) ∧
      relaxation_fit trivialSolver [0] [0] singleStepModel [1, 1] 5000 =
        none) ∧
    (([(1 : ℝ), 1, 1].length = singleStepModel.arity) ∧
      relaxation_fit trivialSolver [0] [0] singleStepModel [1, 1, 1] 5000 =
        some (((trivialSolver singleStepModel.eval [0] [0] [1, 1, 1] 5000).1,
               (trivialSolver singleStepModel.eval [0] [0] [1, 1, 1] 5000).2,
               [0].map fun i => singleStepModel.eval i
                 (trivialSolver singleStepModel.eval [0] [0] [1, 1, 1] 5000).1),
              reliability_warnings
                (trivialSolver singleStepModel.eval [0] [0] [1, 1, 1] 5000).1
                (trivialSolver singleStepModel.eval [0] [0] [1, 1, 1] 5000).2)) :=
  ⟨⟨by decide,
    (relaxation_fit_arity_validation trivialSolver [0] [0] singleStepModel
      [1, 1] 5000).1 (by decide)⟩,
   ⟨rfl,
    (relaxation_fit_arity_validation trivialSolver [0] [0] singleStepModel
      [1, 1, 1] 5000).2 rfl⟩⟩

/-- C2: the standard error of parameter `i` is the square root of the
`i`-th diagonal covariance entry; a warning is emitted for exactly the
parameters whose standard-error magnitude strictly exceeds the value
magnitude; each warning carries the positional letter and renders to the
stated message; and when every value magnitude exceeds its standard
error no warning is emitted. -/
theorem relaxation_fit_warning_spec (solver : Solver) (x y : List ℝ)
    (m : RelaxationModel) (initial_guess : List ℝ) (maxfev : ℕ)
    (params : List ℝ) (cov : ℕ → ℕ → ℝ)
    (hlen : initial_guess.length = m.arity)
    (hsolve : solver m.eval x y initial_guess maxfev = (params, cov)) :
    ∃ ws : List FitWarning,
      relaxation_fit solver x y m initial_guess maxfev =
        some ((params, cov, x.map fun i => m.eval i params), ws) ∧
      (∀ w, w ∈ ws ↔ ∃ i, i < params.length ∧
          |params.getD i 0| < |Real.sqrt (cov i i)| ∧
          w = ⟨parameter_letter i, Real.sqrt (cov i i), params.getD i 0⟩) ∧
      (∀ w ∈ ws, ∀ fmt : ℝ → String,
        w.message fmt = "Parameter " ++ String.singleton w.letter ++
          " has standard deviation (" ++ fmt w.std ++
          ") larger than its value(" ++ fmt w.value ++ ")") ∧
      ((∀ i, i < params.length →
          |Real.sqrt (cov i i)| < |params.getD i 0|) → ws = []) := by
  refine ⟨reliability_warnings params cov,
    relaxation_fit_pos solver x y m initial_guess maxfev params cov hlen
      hsolve,
    fun w => mem_reliability_warnings params cov w,
    fun w _ fmt => rfl, fun hall => ?_⟩
  unfold reliability_warnings
  rw [List.filterMap_eq_nil_iff]
  intro i hi
  rw [List.mem_range] at hi
  exact if_neg (lt_asymm (hall i hi))

/-- Witness for C2 at a concrete well-behaved call. -/
theorem relaxation_fit_warning_spec_witness :
    ([(1 : ℝ), 1, 1].length = singleStepModel.arity) ∧
    (trivialSolver singleStepModel.eval [0] [1] [1, 1, 1] 5000 =
      ([(1 : ℝ), 1, 1], fun _ _ => (0 : ℝ))) ∧
    (∃ ws : List FitWarning,
      relaxation_fit trivialSolver [0] [1] singleStepModel [1, 1, 1] 5000 =
        some (([(1 : ℝ), 1, 1], (fun _ _ => (0 : ℝ)),
          [(0 : ℝ)].map fun i => singleStepModel.eval i [1, 1, 1]), ws) ∧
      (∀ w, w ∈ ws ↔ ∃ i, i < [(1 : ℝ), 1, 1].length ∧
          |[(1 : ℝ), 1, 1].getD i 0| < |Real.sqrt 0| ∧
          w = ⟨parameter_letter i, Real.sqrt 0, [(1 : ℝ), 1, 1].getD i 0⟩) ∧
      (∀ w ∈ ws, ∀ fmt : ℝ → String,
        w.message fmt = "Parameter " ++ String.singleton w.letter ++
          " has standard deviation (" ++ fmt w.std ++
          ") larger than its value(" ++ fmt w.value ++ ")") ∧
      ((∀ i, i < [(1 : ℝ), 1, 1].length →
          |Real.sqrt 0| < |[(1 : ℝ), 1, 1].getD i 0|) → ws = [])) :=
  ⟨rfl, rfl,
    relaxation_fit_warning_spec trivialSolver [0] [1] singleStepModel
      [1, 1, 1] 5000 [1, 1, 1] (fun _ _ => 0) rfl rfl⟩

/-- C3: a successful fit returns the triple of parameters, covariance and
a predicted-y sequence of the same length as `x`, whose `i`-th entry is
the model evaluated at `x[i]` with the fitted parameters. -/
theorem relaxation_fit_predicted_curve (solver : Solver) (x y : List ℝ)
    (m : RelaxationModel) (initial_guess : List ℝ) (maxfev : ℕ)
    (params : List ℝ) (cov : ℕ → ℕ → ℝ)
    (hlen : initial_guess.length = m.arity)
    (hsolve : solver m.eval x y initial_guess maxfev = (params, cov)) :
    ∃ (y_calc : List ℝ) (ws : List FitWarning),
      relaxation_fit solver x y m initial_guess maxfev =
        some ((params, cov, y_calc), ws) ∧
      y_calc.length = x.length ∧
      ∀ i, i < x.length → y_calc.getD i 0 = m.eval (x.getD i 0) params := by
  refine ⟨x.map fun i => m.eval i params, reliability_warnings params cov,
    relaxation_fit_pos solver x y m initial_guess maxfev params cov hlen
      hsolve,
    by simp, fun i hi => ?_⟩
  rw [List.getD_eq_getElem _ _ (by simpa using hi), List.getElem_map,
    List.getD_eq_getElem _ _ hi]

/-- Witness for C3 on a two-point data set. -/
theorem relaxation_fit_predicted_curve_witness :
    ([(2 : ℝ), 3, 4].length = singleStepModel.arity) ∧
    (∃ (y_calc : List ℝ) (ws : List FitWarning),
      relaxation_fit trivialSolver [0, 1] [5, 6] singleStepModel
          [2, 3, 4] 5000 =
        some (([(2 : ℝ), 3, 4], (fun _ _ => (0 : ℝ)), y_calc), ws) ∧
      y_calc.length = [(0 : ℝ), 1].length ∧
      ∀ i, i < [(0 : ℝ), 1].length →
        y_calc.getD i 0 =
          singleStepModel.eval ([(0 : ℝ), 1].getD i 0) [2, 3, 4]) :=
  ⟨rfl,
    relaxation_fit_predicted_curve trivialSolver [0, 1] [5, 6]
      singleStepModel [2, 3, 4] 5000 [2, 3, 4] (fun _ _ => 0) rfl rfl⟩

/-- C5: warnings never change the returned result or abort fitting:
whatever warnings the diagnostic loop produces, the solver's parameter
vector and covariance matrix are returned unmodified and the call
succeeds. -/
theorem relaxation_fit_warnings_do_not_alter_result (solver : Solver)
    (x y : List ℝ) (m : RelaxationModel) (initial_guess : List ℝ)
    (maxfev : ℕ) (params : List ℝ) (cov : ℕ → ℕ → ℝ)
    (hlen : initial_guess.length = m.arity)
    (hsolve : solver m.eval x y initial_guess maxfev = (params, cov)) :
    relaxation_fit solver x y m initial_guess maxfev =
      some ((params, cov, x.map fun i => m.eval i params),
        reliability_warnings params cov) ∧
    (relaxation_fit solver x y m initial_guess maxfev).isSome = true := by
  have h := relaxation_fit_pos solver x y m initial_guess maxfev params cov
    hlen hsolve
  exact ⟨h, by rw [h]; rfl⟩

/-- Witness for C5: a solver answer whose parameters would all be flagged
unreliable (zero values, covariance with unit diagonal) is still returned
unchanged. -/
theorem relaxation_fit_warnings_do_not_alter_result_witness :
    ([(0 : ℝ), 0, 0].length = singleStepModel.arity) ∧
    ((fun _ _ _ _ _ => ([(0 : ℝ), 0, 0], fun _ _ => (1 : ℝ)) : Solver)
        singleStepModel.eval [1] [1] [0, 0, 0] 5000 =
      ([(0 : ℝ), 0, 0], fun _ _ => (1 : ℝ))) ∧
    (relaxation_fit (fun _ _ _ _ _ => ([(0 : ℝ), 0, 0], fun _ _ => (1 : ℝ)))
        [1] [1] singleStepModel [0, 0, 0] 5000 =
      some (([(0 : ℝ), 0, 0], (fun _ _ => (1 : ℝ)),
          [(1 : ℝ)].map fun i => singleStepModel.eval i [0, 0, 0]),
        reliability_warnings [0, 0, 0] fun _ _ => 1) ∧
      (relaxation_fit (fun _ _ _ _ _ => ([(0 : ℝ), 0, 0], fun _ _ => (1 : ℝ)))
        [1] [1] singleStepModel [0, 0, 0] 5000).isSome = true) :=
  ⟨rfl, rfl,
    relaxation_fit_warnings_do_not_alter_result
      (fun _ _ _ _ _ => ([0, 0, 0], fun _ _ => 1)) [1] [1] singleStepModel
      [0, 0, 0] 5000 [0, 0, 0] (fun _ _ => 1) rfl rfl⟩

/-- C8: no fixed initial guess fits every model: its length differs from
the arity of at least one of the three variants, and the fit routine
rejects that combination for every solver and data set. -/
theorem no_universal_default_guess (g : List ℝ) :
    ∃ m : RelaxationModel,
      (m = singleStepModel ∨ m = twoStepModel ∨ m = threeStepModel) ∧
      g.length ≠ m.arity ∧
      ∀ (solver : Solver) (x y : List ℝ) (maxfev : ℕ),
        relaxation_fit solver x y m g maxfev = none := by
  by_cases h3 : g.length = 3
  · refine ⟨twoStepModel, Or.inr (Or.inl rfl), ?_, fun solver x y maxfev => ?_⟩
    · rw [h3]
      decide
    · have : g.length ≠ twoStepModel.arity := by
        rw [h3]
        decide
      simp [relaxation_fit, this]
  · refine ⟨singleStepModel, Or.inl rfl, h3, fun solver x y maxfev => ?_⟩
    simp [relaxation_fit, h3]
    exact fun h => absurd h h3

/-- C9: no validation relates the lengths of `x` and `y` (or the data
count) to the arity: for arbitrary `x` and `y`, a guess of matching
length passes the precondition and the solver's output is returned. -/
theorem relaxation_fit_no_data_length_validation (solver : Solver)
    (x y : List ℝ) (m : RelaxationModel) (initial_guess : List ℝ)
    (maxfev : ℕ) (params : List ℝ) (cov : ℕ → ℕ → ℝ)
    (hlen : initial_guess.length = m.arity)
    (hsolve : solver m.eval x y initial_guess maxfev = (params, cov)) :
    (relaxation_fit solver x y m initial_guess maxfev).isSome = true ∧
    relaxation_fit solver x y m initial_guess maxfev =
      some ((params, cov, x.map fun i => m.eval i params),
        reliability_warnings params cov) := by
  have h := relaxation_fit_pos solver x y m initial_guess maxfev params cov
    hlen hsolve
  exact ⟨by rw [h]; rfl, h⟩

/-- Witness for C9: three time points against a single observation (and
fewer points than the three parameters) still reach the solver. -/
theorem relaxation_fit_no_data_length_validation_witness :
    ([(0 : ℝ), 1, 2].length ≠ [(7 : ℝ)].length) ∧
    ([(1 : ℝ), 1, 1].length = singleStepModel.arity) ∧
    ((relaxation_fit trivialSolver [0, 1, 2] [7] singleStepModel
        [1, 1, 1] 5000).isSome = true ∧
      relaxation_fit trivialSolver [0, 1, 2] [7] singleStepModel
          [1, 1, 1] 5000 =
        some (([(1 : ℝ), 1, 1], (fun _ _ => (0 : ℝ)),
            [(0 : ℝ), 1, 2].map fun i => singleStepModel.eval i [1, 1, 1]),
          reliability_warnings [1, 1, 1] fun _ _ => 0)) :=
  ⟨by decide, rfl,
    relaxation_fit_no_data_length_validation trivialSolver [0, 1, 2] [7]
      singleStepModel [1, 1, 1] 5000 [1, 1, 1] (fun _ _ => 0) rfl rfl⟩

end Relax
